import Mathlib

/-!
Shallow embedding of the HyperOS Discord moderation bot (`src/bot.py`) and
verification of its specification claims.

Modelling conventions:

* Text that only ever participates in equality tests (user IDs, unit names,
  action types, response messages, reaction-role keys) is kept as Lean
  `String`.  Text that the word filter processes character by character
  (message bodies, filter words) is modelled as `List Nat` of Unicode code
  points, restricted to the ASCII behaviour of Python `str.lower` /
  `str.strip` (documented at the corresponding definitions).
* Python dictionaries (`muted_users`, `reaction_roles`) are modelled as
  association lists with overwrite-on-insert; timestamps (`time.time()`
  arithmetic) are modelled as `Int` seconds.
* External effects (Discord REST calls, message deletion, logging) are made
  explicit: each handler takes boolean flags describing whether the external
  calls it performs succeed, and returns the list of external calls it
  attempted, in order, next to its response.
* A Python exception that escapes a handler is modelled by the
  `Outcome.uncaught` constructor; everything a handler catches itself is an
  ordinary `Response` value.
-/

namespace HyperOSBot

/-! ## Generic list utilities (Python string/dict primitives) -/

/-- Whether `pre` is an initial segment of `l` (decidable, executable). -/
def startsWith [DecidableEq α] : List α → List α → Bool
  | [], _ => true
  | _ :: _, [] => false
  | a :: pre, b :: l => decide (a = b) && startsWith pre l

/-- Python substring test `needle in hay` (empty needle always matches). -/
def containsSub [DecidableEq α] (hay needle : List α) : Bool :=
  (List.range (hay.length + 1)).any (fun i => startsWith needle (hay.drop i))

/-- Python `split(sep)` on a list of characters: always returns at least one
chunk, and empty chunks between adjacent separators are kept. -/
def splitOnSep [DecidableEq α] (sep : α) : List α → List (List α)
  | [] => [[]]
  | c :: rest =>
    match splitOnSep sep rest with
    | [] => [[c]]
    | h :: t => if c = sep then [] :: h :: t else (c :: h) :: t

/-- Drop the longest suffix whose elements satisfy `p`. -/
def rstripP (p : α → Bool) : List α → List α
  | [] => []
  | c :: t =>
    match rstripP p t with
    | [] => if p c then [] else [c]
    | h :: t2 => c :: h :: t2

/-- Python `str.strip`: drop leading and trailing elements satisfying `p`. -/
def stripP (p : α → Bool) (l : List α) : List α :=
  rstripP p (l.dropWhile p)

/-- Association-list lookup, modelling Python `dict.get`. -/
def assocGet [DecidableEq α] (l : List (α × β)) (k : α) : Option β :=
  (l.find? (fun p => decide (p.1 = k))).map (·.2)

/-- Association-list deletion, modelling Python `del d[k]`. -/
def assocErase [DecidableEq α] (l : List (α × β)) (k : α) : List (α × β) :=
  l.filter (fun p => !(decide (p.1 = k)))

/-- Association-list overwrite, modelling Python `d[k] = v`. -/
def assocSet [DecidableEq α] (l : List (α × β)) (k : α) (v : β) : List (α × β) :=
  (k, v) :: assocErase l k

/-! ## Text model (code points, ASCII fragment of Python `str` methods) -/

/-- Code-point model of text processed by the word filter. -/
abbrev Text := List Nat

/-- ASCII fragment of Python `str.lower` on a single code point. -/
def lowerN (n : Nat) : Nat :=
  if 65 ≤ n ∧ n ≤ 90 then n + 32 else n

/-- Python `str.lower` (ASCII fragment), code-point wise. -/
def toLowerN (s : Text) : Text := s.map lowerN

/-- Python whitespace (the characters removed by `str.strip`), on a code
point: space, tab, newline, vertical tab, form feed, carriage return. -/
def wsN (n : Nat) : Bool :=
  decide (n = 32 ∨ n = 9 ∨ n = 10 ∨ n = 11 ∨ n = 12 ∨ n = 13)

/-- Python `str.strip` on code points. -/
def stripN (s : Text) : Text := stripP wsN s

/-- Encode a Lean string literal as code points (for concrete inputs). -/
def txt (s : String) : Text := s.data.map Char.toNat

/-! ## Numeric form-field parsing (Python `int(...)` and `str.isdigit`) -/

/-- Value of a digit string, most significant first. -/
def digitsVal (cs : List Char) : Nat :=
  cs.foldl (fun a c => a * 10 + (c.toNat - 48)) 0

/-- Python `str.isdigit` (ASCII fragment): nonempty and all digits. -/
def isDigits (s : String) : Bool :=
  !s.data.isEmpty && s.data.all Char.isDigit

/-- Python whitespace predicate on a `Char` (for `int(...)` stripping). -/
def wsC (c : Char) : Bool := wsN c.toNat

/-- Python `int(s)` on a decimal string: strip whitespace, optional sign,
then a nonempty digit run; `none` models the `ValueError` raised otherwise.
(Underscore separators and non-ASCII digits are outside the model.) -/
def pyInt? (s : String) : Option Int :=
  match stripP wsC s.data with
  | [] => none
  | '-' :: rest =>
    if !rest.isEmpty && rest.all Char.isDigit then some (-(Int.ofNat (digitsVal rest))) else none
  | '+' :: rest =>
    if !rest.isEmpty && rest.all Char.isDigit then some (Int.ofNat (digitsVal rest)) else none
  | cs =>
    if cs.all Char.isDigit then some (Int.ofNat (digitsVal cs)) else none

/-- Python `int(request.form.get(field, default))`: an absent field uses the
integer default, a present field is parsed (and may raise). -/
def pyIntField (field : Option String) (default : Int) : Option Int :=
  match field with
  | none => some default
  | some s => pyInt? s

/-- The validation `not member_id or not member_id.isdigit()` used by the
dashboard handlers on ID form fields (`none` models an absent field). -/
def validNumericId : Option String → Bool
  | none => false
  | some s => isDigits s

/-- Numeric value of a validated ID field, modelling `int(member_id)`. -/
def natOfDigits (s : String) : Nat := digitsVal s.data

/-- Render a natural number in decimal, modelling Python `str(n)`. -/
def natToStr (n : Nat) : String := String.mk (Nat.toDigits 10 n)

/-- Render an integer in decimal, modelling Python `str(i)` / f-strings. -/
def intToStr (i : Int) : String :=
  if i < 0 then "-" ++ natToStr i.natAbs else natToStr i.natAbs

/-- Python `str(x)` applied to an optional string, where `str(None)` is the
string `"None"` (used by `login_required`). -/
def pyStr : Option String → String
  | none => "None"
  | some s => s

/-! ## Constants from the configuration section of `bot.py` -/

/-- Hardcoded guild ID for the HyperOS server. -/
def GUILD_ID : Nat := 1448175320531468402

/-! ## Responses, external calls and handler outcomes -/

/-- The visible result of a handler: a dashboard redirect (with a `status`
or `error` query parameter), a login-flow page/redirect, or a slash-command
followup message.  `apiError` is the redirect produced by
`handle_api_error` (its message is built from the HTTP response and carries
no specified content); `exceptionErr` is the catch-all
`except Exception as e` followup of `add_reaction_role`. -/
inductive Response
  | redirectStatus (msg : String)
  | redirectError (msg : String)
  | apiError
  | redirectLogin
  | redirectLoginErr (msg : String)
  | redirectLogoutErr (msg : String)
  | loginPageErr (msg : String)
  | followupOk (msg : String)
  | followupErr (msg : String)
  | exceptionErr
  deriving DecidableEq

/-- Whether a response reports a failure to the invoker. -/
def Response.isFailure : Response → Bool
  | .redirectError _ => true
  | .apiError => true
  | .redirectLoginErr _ => true
  | .redirectLogoutErr _ => true
  | .loginPageErr _ => true
  | .followupErr _ => true
  | .exceptionErr => true
  | _ => false

/-- External calls a handler can attempt, in the order it attempts them.
`sleepFor` (an `asyncio.sleep` suspension) and `unbanUser` are part of the
vocabulary so that their absence from a trace is expressible. -/
inductive Action
  | deleteMsg
  | logFilter (word : Text)
  | patchTimeout (uid : Nat)
  | patchClearTimeout (uid : Nat)
  | kickUser (uid : Nat)
  | banUser (uid : Nat)
  | unbanUser (uid : Nat)
  | sleepFor (seconds : Int)
  | fetchMessages
  | bulkDelete (n : Nat)
  | fetchMessage
  | addReaction
  deriving DecidableEq

/-- Result of a Flask handler body: either a value (the handler returned
normally, every exception it raised having been caught inside it), or an
exception that escaped the handler to the web framework. -/
inductive Outcome (α : Type)
  | ok (a : α)
  | uncaught
  deriving DecidableEq

/-- Whether the handler let an exception escape. -/
def Outcome.isUncaught : Outcome α → Bool
  | .ok _ => false
  | .uncaught => true

/-! ## Mute registry (`HyperOSBot.muted_users`) -/

/-- The in-memory mute registry `{user_id: unmute_timestamp}`. -/
abbrev MuteRegistry := List (Nat × Int)

/-- Registry lookup, `muted_users.get(user_id)`. -/
def lookup (reg : MuteRegistry) (u : Nat) : Option Int := assocGet reg u

/-- Registry deletion, `del muted_users[user_id]`. -/
def erase (reg : MuteRegistry) (u : Nat) : MuteRegistry := assocErase reg u

/-- Registry overwrite, `muted_users[user_id] = expiry` (used by the
timeout command and the dashboard tempmute handler). -/
def setMute (reg : MuteRegistry) (u : Nat) (expiry : Int) : MuteRegistry :=
  assocSet reg u expiry

/-- The mute check at the top of `on_message` (lines 148–161):

    unmute_time = self.muted_users.get(message.author.id)
    if unmute_time:
        if time.time() < unmute_time: ... delete/return ...
        else:
            if message.author.id in self.muted_users:
                del self.muted_users[message.author.id]

Returns whether the author is treated as muted, together with the registry
after the lazy cleanup.  Note the Python truthiness guard `if unmute_time:`:
an entry whose timestamp is exactly `0` is skipped entirely. -/
def muteCheck (reg : MuteRegistry) (u : Nat) (now : Int) : Bool × MuteRegistry :=
  match lookup reg u with
  | none => (false, reg)
  | some t =>
    if t ≠ 0 then
      if now < t then (true, reg)
      else (false, if (lookup reg u).isSome then erase reg u else reg)
    else (false, reg)

/-! ## Word filter (`on_message` lines 163–193) -/

/-- The loop body test `if word and word in content_lower`. -/
def matchesWord (contentLower : Text) (w : Text) : Bool :=
  !w.isEmpty && containsSub contentLower w

/-- First filter word (in list order) that is nonempty and occurs in the
lowercased content; `none` if no word matches. -/
def findFilteredWord (filterList : List Text) (contentLower : Text) : Option Text :=
  filterList.find? (matchesWord contentLower)

/-- External calls made by the word-filter section: on a match, attempt to
delete the message, and (only if the deletion did not raise) send the
filter-violation log embed naming the trigger word. -/
def wordFilterActions (filterList : List Text) (content : Text) (deleteOk : Bool) :
    List Action :=
  match findFilteredWord filterList (toLowerN content) with
  | some w => if deleteOk then [Action.deleteMsg, Action.logFilter w] else [Action.deleteMsg]
  | none => []

/-! ## The message event handler (`HyperOSBot.on_message`) -/

/-- The parts of a `discord.Message` that `on_message` inspects. -/
structure MsgCtx where
  authorBot : Bool
  guildId : Option Nat
  authorId : Nat
  content : Text
  deriving DecidableEq

/-- Environment of one `on_message` run: the current wall-clock time and
whether each attempted `message.delete()` call succeeds (a failing call
raises `discord.Forbidden`, which the handler catches and only logs). -/
structure MsgEnv where
  now : Int
  muteDeleteOk : Bool
  filterDeleteOk : Bool
  deriving DecidableEq

/-- `HyperOSBot.on_message` (lines 143–193): guard clause, mute enforcement
with lazy registry cleanup, then the word filter.  The `return` that stops
processing sits inside the `try:` after `await message.delete()`, so a
failing deletion falls through to the word filter. -/
def on_message (reg : MuteRegistry) (ctx : MsgCtx) (filterList : List Text)
    (env : MsgEnv) : MuteRegistry × List Action :=
  if ctx.authorBot || !(decide (ctx.guildId = some GUILD_ID)) then (reg, [])
  else
    let checked := muteCheck reg ctx.authorId env.now
    if checked.1 then
      if env.muteDeleteOk then (checked.2, [Action.deleteMsg])
      else (checked.2, Action.deleteMsg :: wordFilterActions filterList ctx.content env.filterDeleteOk)
    else (checked.2, wordFilterActions filterList ctx.content env.filterDeleteOk)

/-! ## Guild configuration (`CONFIG_CACHE[GUILD_ID]`) -/

/-- Reaction-role table `{message_id: {emoji_name: role_id}}` with string
keys and string role IDs, as stored in the configuration cache. -/
abbrev RRTable := List (String × List (String × String))

/-- The per-guild configuration record held in `CONFIG_CACHE`. -/
structure GuildConfig where
  log_channel_id : Option String
  word_filter_list : List Text
  reaction_roles : RRTable
  deriving DecidableEq

/-- The comprehension `[w.strip().lower() for w in words.split(',') if w.strip()]`
shared verbatim by `set_word_filter` (line 272) and `api_update_config`
(line 930). -/
def parseWordFilter (raw : Text) : List Text :=
  (splitOnSep 44 raw).filterMap (fun w =>
    if stripN w = [] then none else some (toLowerN (stripN w)))

/-- Python `", ".join(list)` over code-point words. -/
def joinComma (l : List Text) : Text := List.intercalate (txt ", ") l

/-- The `/admin set-word-filter` slash command (lines 269–275): replaces the
word-filter list and acknowledges publicly. -/
def set_word_filter (cfg : GuildConfig) (words : Text) : GuildConfig × Response :=
  let newList := parseWordFilter words
  ({ cfg with word_filter_list := newList },
   Response.followupOk (String.mk
     ((txt "✅ Word Filter List successfully updated to: " ++
       (if newList.isEmpty then txt "None" else joinComma newList) ++
       txt ". Filter is now active.").map Char.ofNat)))

/-- The dashboard `POST /api/config` handler `api_update_config`
(lines 918–935): validates the log-channel field, then replaces both the
log channel and the word-filter list in one shot. -/
def api_update_config (cfg : GuildConfig) (logIdField : Option String)
    (wfField : Option Text) : GuildConfig × Response :=
  let newLogId := String.mk (stripP wsC (logIdField.getD "").data)
  let wfRaw := stripN (wfField.getD [])
  if newLogId ≠ "" ∧ ¬ isDigits newLogId then
    (cfg, Response.redirectError "Log Channel ID must be a number (the 18-digit Discord Channel ID).")
  else
    ({ cfg with
        log_channel_id := if newLogId ≠ "" then some newLogId else none,
        word_filter_list := parseWordFilter wfRaw },
     Response.redirectStatus "Configuration successfully updated!")

/-! ## Dashboard session and authenticator -/

/-- The session keys consulted by the authenticator: the `authenticated`
flag (`session.get('authenticated', False)`) and the stored identity
(`session.get('discord_user_id')`). -/
structure SessionState where
  authenticated : Bool
  discordUserId : Option String
  deriving DecidableEq

/-- The test performed by the `login_required` decorator (lines 471–484):
fallback admin (identity equals the sentinel `'FALLBACK_ADMIN'`) or OAuth
admin (`str(user_id)` equals the configured administrator ID), both
requiring the `authenticated` flag. -/
def login_required_check (adminId : String) (s : SessionState) : Bool :=
  let isFallbackAdmin := s.authenticated && decide (s.discordUserId = some "FALLBACK_ADMIN")
  let isOauthAdmin := s.authenticated && decide (pyStr s.discordUserId = adminId)
  isFallbackAdmin || isOauthAdmin

/-- A protected route: run the wrapped handler when the check passes,
otherwise redirect to the login page. -/
def login_required_route (adminId : String) (s : SessionState) (body : Response) : Response :=
  if login_required_check adminId s then body else Response.redirectLogin

/-- The passphrase branch of `POST /login` (lines 753–760): a correct
passphrase sets the flag and the sentinel identity and redirects to the
dashboard; anything else leaves the session alone and re-renders the login
page with an error. -/
def login_post (fallbackPassphrase : String) (s : SessionState)
    (passphrase : Option String) : SessionState × Response :=
  if passphrase = some fallbackPassphrase then
    ({ authenticated := true, discordUserId := some "FALLBACK_ADMIN" },
     Response.redirectStatus "Successfully logged in with passphrase.")
  else
    (s, Response.loginPageErr "Invalid passphrase.")

/-- `GET /oauth_callback` (lines 827–859).  `code` is the authorization code
query parameter; `fetchedUid` is the identity obtained by the token
exchange plus `/users/@me` fetch, with `none` standing for any `HTTPError`
or other failure in that exchange.  The session is written only when the
fetched identity equals the configured administrator ID. -/
def oauth_callback (adminId : String) (s : SessionState) (code : Option String)
    (fetchedUid : Option String) : SessionState × Response :=
  match code with
  | none => (s, Response.redirectLoginErr "Authorization failed or was cancelled.")
  | some _ =>
    match fetchedUid with
    | none => (s, Response.redirectLoginErr "Discord API error during login.")
    | some uid =>
      if uid = adminId then
        ({ authenticated := true, discordUserId := some uid },
         Response.redirectStatus "Successfully logged in with Discord.")
      else
        (s, Response.redirectLogoutErr
          ("Access denied. Your ID (" ++ uid ++ ") does not match the configured Admin ID."))

/-! ## Slash commands: timeout / untimeout (`AdminCommands`, lines 345–406) -/

/-- `/admin timeout` (lines 345–376): fetch the member, convert minutes to
seconds, PATCH the Discord timeout, and only once that call succeeded
record the silent mute `bot.muted_users[member.id] = time.time() + seconds`.
`memberFound` models `_get_member` succeeding; `patchOk` models the REST
PATCH not raising `HTTPError`. -/
def timeout_cmd (reg : MuteRegistry) (memberIdArg : String) (durationMinutes : Int)
    (now : Int) (memberFound patchOk : Bool) : MuteRegistry × Response × List Action :=
  if !(isDigits memberIdArg) then
    (reg, Response.followupErr "❌ Member ID must be a numeric ID.", [])
  else if !memberFound then
    (reg, Response.followupErr "❌ User not found in this server. Check the ID.", [])
  else
    let uid := natOfDigits memberIdArg
    let seconds := durationMinutes * 60
    if patchOk then
      (setMute reg uid (now + seconds),
       Response.followupOk ("✅ Successfully timed out <@" ++ memberIdArg ++ "> for "
         ++ intToStr durationMinutes ++ " minutes."),
       [Action.patchTimeout uid])
    else
      (reg, Response.followupErr "❌ Discord API Error: Could not timeout user.",
       [Action.patchTimeout uid])

/-- `/admin untimeout` (lines 378–406): fetch the member, PATCH
`communication_disabled_until: None`, then remove the silent-mute entry if
present; always acknowledges success when the PATCH went through, whether
or not an entry existed. -/
def untimeout (reg : MuteRegistry) (memberIdArg : String)
    (memberFound patchOk : Bool) : MuteRegistry × Response × List Action :=
  if !(isDigits memberIdArg) then
    (reg, Response.followupErr "❌ Member ID must be a numeric ID.", [])
  else if !memberFound then
    (reg, Response.followupErr "❌ User not found in this server. Check the ID.", [])
  else
    let uid := natOfDigits memberIdArg
    if patchOk then
      ((if (lookup reg uid).isSome then erase reg uid else reg),
       Response.followupOk ("✅ Successfully removed timeout for <@" ++ memberIdArg ++ ">."),
       [Action.patchClearTimeout uid])
    else
      (reg, Response.followupErr "❌ Discord API Error: Could not remove timeout.",
       [Action.patchClearTimeout uid])

/-! ## Dashboard API handlers -/

/-- Environment of `api_prune`: whether the message fetch and the bulk
delete REST calls succeed, and the message IDs the fetch returns. -/
structure PruneEnv where
  fetchOk : Bool
  deleteOk : Bool
  fetchedIds : List String
  deriving DecidableEq

/-- `POST /api/prune` (lines 937–973).  Note the order taken from the
source: `count = int(request.form.get('count', 10))` runs before any
validation and outside the `try:` block, so a present but non-numeric
`count` raises an uncaught `ValueError` (modelled by `Outcome.uncaught`). -/
def api_prune (channelId countField : Option String) (env : PruneEnv) :
    Outcome (Response × List Action) :=
  match pyIntField countField 10 with
  | none => Outcome.uncaught
  | some count =>
    if !(validNumericId channelId) then
      Outcome.ok (Response.redirectError "Invalid Channel ID for Prune.", [])
    else if count < 1 ∨ count > 100 then
      Outcome.ok (Response.redirectError "Prune count must be between 1 and 100.", [])
    else if !env.fetchOk then
      Outcome.ok (Response.apiError, [Action.fetchMessages])
    else if !env.deleteOk then
      Outcome.ok (Response.apiError, [Action.fetchMessages, Action.bulkDelete env.fetchedIds.length])
    else
      Outcome.ok
        (Response.redirectStatus ("Successfully pruned " ++ natToStr env.fetchedIds.length
           ++ " messages in channel " ++ (channelId.getD "") ++ "."),
         [Action.fetchMessages, Action.bulkDelete env.fetchedIds.length])

/-- The duration conversion inlined in `api_tempmute` (lines 988–991):
minutes ×60, hours ×3600, days ×86400, anything else 0. -/
def toSeconds (duration : Int) (unit : String) : Int :=
  if unit = "minutes" then duration * 60
  else if unit = "hours" then duration * 3600
  else if unit = "days" then duration * 86400
  else 0

/-- Epoch second of Python `datetime.min` (0001-01-01 00:00:00). -/
def DATETIME_MIN_EPOCH : Int := -62135596800

/-- Epoch second of Python `datetime.max` (9999-12-31 23:59:59.999999),
truncated to whole seconds. -/
def DATETIME_MAX_EPOCH : Int := 253402300799

/-- Whether the expression
`(discord.utils.utcnow() + timedelta(seconds=seconds)).isoformat()` at
line 997 — which runs outside the `try:` — completes without raising, with
`now` the current epoch second: the `timedelta` constructor requires its
normalized day count within ±999999999 days (an integer `seconds` outside
roughly ±8.64·10¹³ overflows there, and a `seconds` too large for a float
already overflows in `time.time() + seconds` at line 996 — both uncaught),
and the resulting datetime must stay within `datetime.min .. datetime.max`.
Modelled at whole-second granularity; in the source `utcnow()` itself is a
valid datetime by construction, i.e. `now` satisfies
`DATETIME_MIN_EPOCH ≤ now ≤ DATETIME_MAX_EPOCH` in any real run. -/
def timeoutDtOk (now seconds : Int) : Bool :=
  decide (-86399999913600 ≤ seconds) && decide (seconds ≤ 86399999999999)
    && decide (DATETIME_MIN_EPOCH ≤ now + seconds)
    && decide (now + seconds ≤ DATETIME_MAX_EPOCH)

/-- `POST /api/tempmute` (lines 976–1019).  As in `api_prune`, the
`int(request.form.get('duration', 1))` conversion runs before validation
and outside the `try:`, so a non-numeric `duration` escapes the handler;
likewise the `timeout_until` / `timeout_dt` timestamp computations at
lines 996–997 run outside the `try:`, so a `seconds` value for which
`timedelta` construction or the datetime addition overflows (see
`timeoutDtOk`) raises an uncaught `OverflowError`.  After a successful
PATCH the silent-mute registry records `time.time() + seconds`; a zero
`seconds` (unknown unit) is not rejected — only `seconds > 28 * 86400`
is. -/
def api_tempmute (reg : MuteRegistry) (memberId durationField unitField : Option String)
    (now : Int) (patchOk : Bool) :
    Outcome (MuteRegistry × Response × List Action) :=
  match pyIntField durationField 1 with
  | none => Outcome.uncaught
  | some duration =>
    let unit := unitField.getD "minutes"
    if !(validNumericId memberId) then
      Outcome.ok (reg, Response.redirectError "Invalid Member ID for Mute.", [])
    else
      let mid := memberId.getD ""
      let seconds := toSeconds duration unit
      if seconds > 28 * 86400 then
        Outcome.ok (reg, Response.redirectError "Timeout duration cannot exceed 28 days.", [])
      else if !(timeoutDtOk now seconds) then
        Outcome.uncaught
      else
        let uid := natOfDigits mid
        if patchOk then
          Outcome.ok
            (setMute reg uid (now + seconds),
             Response.redirectStatus ("Successfully timed out user " ++ mid ++ " for "
               ++ intToStr duration ++ " " ++ unit ++ "."),
             [Action.patchTimeout uid])
        else
          Outcome.ok (reg, Response.apiError, [Action.patchTimeout uid])

/-- `POST /api/unmute` (lines 1022–1051): validate the ID, PATCH
`communication_disabled_until: None`, then remove the registry entry if
present; the acknowledgment is the same success message whether or not the
user was muted. -/
def api_unmute (reg : MuteRegistry) (memberId : Option String) (patchOk : Bool) :
    Outcome (MuteRegistry × Response × List Action) :=
  if !(validNumericId memberId) then
    Outcome.ok (reg, Response.redirectError "Invalid Member ID for Unmute.", [])
  else
    let mid := memberId.getD ""
    let uid := natOfDigits mid
    if patchOk then
      Outcome.ok
        ((if (lookup reg uid).isSome then erase reg uid else reg),
         Response.redirectStatus ("Successfully unmuted user " ++ mid ++ "."),
         [Action.patchClearTimeout uid])
    else
      Outcome.ok (reg, Response.apiError, [Action.patchClearTimeout uid])

/-- Environment of `api_kick_ban`: whether each possible REST call
succeeds. -/
structure KickBanEnv where
  kickOk : Bool
  banOk : Bool
  unbanOk : Bool
  deriving DecidableEq

/-- `POST /api/kick_ban` (lines 1054–1098).  The `tempban` branch issues a
single `PUT /guilds/{gid}/bans/{uid}` with `delete_message_days: 1` and then
immediately reports success; no duration is read, no suspension happens and
no unban is ever scheduled.  An unrecognized `action_type` falls through
with the initial empty status message. -/
def api_kick_ban (memberId actionType : Option String) (env : KickBanEnv) :
    Response × List Action :=
  if !(validNumericId memberId) then
    (Response.redirectError "Invalid Member ID.", [])
  else
    let mid := memberId.getD ""
    let uid := natOfDigits mid
    if actionType = some "kick" then
      if env.kickOk then
        (Response.redirectStatus ("Successfully Kicked user " ++ mid ++ "."), [Action.kickUser uid])
      else (Response.apiError, [Action.kickUser uid])
    else if actionType = some "tempban" then
      if env.banOk then
        (Response.redirectStatus ("Successfully Banned user " ++ mid
           ++ " (1 day of messages deleted)."), [Action.banUser uid])
      else (Response.apiError, [Action.banUser uid])
    else if actionType = some "unban" then
      if env.unbanOk then
        (Response.redirectStatus ("Successfully Unbanned user " ++ mid ++ "."), [Action.unbanUser uid])
      else (Response.apiError, [Action.unbanUser uid])
    else
      (Response.redirectStatus "", [])

/-! ## Reaction-role binding creation (`add_reaction_role`, lines 209–238) -/

/-- The role argument of `/addreactionrole`. -/
structure RoleRef where
  id : Nat
  name : String
  deriving DecidableEq

/-- Environment of `add_reaction_role`: whether the channel lookup finds a
channel, whether the message fetch succeeds (`discord.NotFound`
otherwise), and whether `message.add_reaction` succeeds
(`discord.Forbidden` otherwise). -/
structure RREnv where
  channelFound : Bool
  fetchOk : Bool
  addReactionOk : Bool
  deriving DecidableEq

/-- Nested table update
`rr_config.setdefault(message_id, {})[emoji] = str(role.id)` — literally:
`if message_id not in rr_config: rr_config[message_id] = {}` followed by
`rr_config[message_id][emoji] = str(role.id)`. -/
def rrInsert (t : RRTable) (mid emoji rid : String) : RRTable :=
  let inner := (assocGet t mid).getD []
  assocSet t mid (assocSet inner emoji rid)

/-- `/addreactionrole` (lines 209–238): split the link on `/`, take the last
two segments as message and channel IDs, look up the channel, fetch the
message, add the reaction, and only then record the mapping.  Every failure
is caught inside the handler and reported as a followup error with the
table untouched; `int(...)` on a malformed segment lands in the generic
`except Exception` branch. -/
def add_reaction_role (t : RRTable) (link emoji : String) (role : RoleRef)
    (env : RREnv) : RRTable × Response × List Action :=
  let parts := splitOnSep '/' link.data
  if parts.length < 3 then
    (t, Response.followupErr "❌ Invalid message link format. Ensure the link is a full Discord message link.", [])
  else
    match parts.reverse with
    | midCs :: cidCs :: _ =>
      let mid := String.mk midCs
      match pyInt? (String.mk cidCs) with
      | none => (t, Response.exceptionErr, [])
      | some _ =>
        if !env.channelFound then
          (t, Response.followupErr "❌ Could not find the channel from the message link.", [])
        else
          match pyInt? mid with
          | none => (t, Response.exceptionErr, [])
          | some _ =>
            if !env.fetchOk then
              (t, Response.followupErr "❌ Message not found. Check the channel ID and message ID.",
               [Action.fetchMessage])
            else if !env.addReactionOk then
              (t, Response.followupErr "❌ I am missing permissions to add a reaction or assign the role.",
               [Action.fetchMessage, Action.addReaction])
            else
              (rrInsert t mid emoji (natToStr role.id),
               Response.followupOk ("✅ Reaction Role set: " ++ emoji ++ " -> " ++ role.name
                 ++ " for message ID " ++ mid ++ "."),
               [Action.fetchMessage, Action.addReaction])
    | _ => (t, Response.exceptionErr, [])

/-! ## Supporting lemmas: list primitives -/

theorem dropWhile_length_le (p : α → Bool) (l : List α) :
    (l.dropWhile p).length ≤ l.length := by
  induction l with
  | nil => simp
  | cons c t ih =>
    by_cases hc : p c = true
    · simp only [List.dropWhile_cons, hc, if_true, List.length_cons]
      omega
    · simp [List.dropWhile_cons, hc]

theorem dropWhile_self_idem (p : α → Bool) (l : List α) :
    (l.dropWhile p).dropWhile p = l.dropWhile p := by
  induction l with
  | nil => rfl
  | cons c t ih =>
    by_cases h : p c = true
    · simp [List.dropWhile_cons, h, ih]
    · simp [List.dropWhile_cons, h]

theorem rstripP_idem (p : α → Bool) (l : List α) :
    rstripP p (rstripP p l) = rstripP p l := by
  induction l with
  | nil => rfl
  | cons c t ih =>
    rw [rstripP]
    cases hr : rstripP p t with
    | nil =>
      by_cases h : p c = true
      · simp [h, rstripP]
      · simp [h, rstripP]
    | cons h2 t2 =>
      rw [rstripP, ← hr, ih, hr]

theorem dropWhile_rstripP (p : α → Bool) (l : List α) (hl : l.dropWhile p = l) :
    (rstripP p l).dropWhile p = rstripP p l := by
  cases l with
  | nil => rfl
  | cons c t =>
    have hc : p c = false := by
      by_cases h : p c = true
      · rw [List.dropWhile_cons, if_pos h] at hl
        have h1 : (List.dropWhile p t).length ≤ t.length := dropWhile_length_le p t
        have h2 := congrArg List.length hl
        simp at h2
        omega
      · simpa using h
    rw [rstripP]
    cases hr : rstripP p t with
    | nil => simp [hc, List.dropWhile_cons]
    | cons h2 t2 => simp [hc, List.dropWhile_cons]

theorem stripP_idem (p : α → Bool) (l : List α) :
    stripP p (stripP p l) = stripP p l := by
  unfold stripP
  rw [dropWhile_rstripP p _ (dropWhile_self_idem p l), rstripP_idem]

theorem dropWhile_map_comm (f : α → α) (p : α → Bool) (h : ∀ a, p (f a) = p a)
    (l : List α) : (l.map f).dropWhile p = (l.dropWhile p).map f := by
  induction l with
  | nil => rfl
  | cons c t ih =>
    by_cases hc : p c = true
    · simp [List.dropWhile_cons, h, hc, ih]
    · simp [List.dropWhile_cons, h, hc]

theorem rstripP_map_comm (f : α → α) (p : α → Bool) (h : ∀ a, p (f a) = p a)
    (l : List α) : rstripP p (l.map f) = (rstripP p l).map f := by
  induction l with
  | nil => rfl
  | cons c t ih =>
    simp only [List.map_cons]
    rw [rstripP, rstripP, ih]
    cases hr : rstripP p t with
    | nil => by_cases hc : p c = true <;> simp [hc, h c]
    | cons h2 t2 => simp

theorem stripP_map_comm (f : α → α) (p : α → Bool) (h : ∀ a, p (f a) = p a)
    (l : List α) : stripP p (l.map f) = (stripP p l).map f := by
  unfold stripP
  rw [dropWhile_map_comm f p h, rstripP_map_comm f p h]

theorem find?_first_split (p : α → Bool) (l : List α) (a : α) (h : l.find? p = some a) :
    ∃ pre post, l = pre ++ a :: post ∧ p a = true ∧ ∀ v ∈ pre, p v = false := by
  induction l with
  | nil => simp at h
  | cons c t ih =>
    by_cases hc : p c = true
    · rw [List.find?_cons_of_pos _ hc] at h
      obtain rfl : c = a := by injection h
      exact ⟨[], t, rfl, hc, by simp⟩
    · rw [List.find?_cons_of_neg _ (by simpa using hc)] at h
      obtain ⟨pre, post, heq, hpa, hpre⟩ := ih h
      exact ⟨c :: pre, post, by simp [heq], hpa, by
        intro v hv
        rcases List.mem_cons.mp hv with rfl | hv
        · simpa using hc
        · exact hpre v hv⟩

theorem assocGet_assocErase [DecidableEq α] (l : List (α × β)) (k : α) :
    assocGet (assocErase l k) k = none := by
  induction l with
  | nil => rfl
  | cons p t ih =>
    by_cases hp : p.1 = k
    · simpa [assocErase, List.filter_cons, hp] using ih
    · simp only [assocErase, List.filter_cons, hp, decide_False, Bool.not_false, if_true]
      simp only [assocGet, List.find?_cons, hp, decide_False] at ih ⊢
      exact ih

/-! ## Supporting lemmas: text primitives -/

theorem lowerN_idem (n : Nat) : lowerN (lowerN n) = lowerN n := by
  unfold lowerN
  split_ifs <;> omega

theorem wsN_lowerN (n : Nat) : wsN (lowerN n) = wsN n := by
  unfold lowerN wsN
  split_ifs with h
  · simp only [decide_eq_decide]
    omega
  · rfl

theorem toLowerN_idem (s : Text) : toLowerN (toLowerN s) = toLowerN s := by
  simp [toLowerN, List.map_map, Function.comp, lowerN_idem]

theorem stripN_toLowerN (s : Text) : stripN (toLowerN s) = toLowerN (stripN s) :=
  stripP_map_comm lowerN wsN wsN_lowerN s

theorem stripN_idem (s : Text) : stripN (stripN s) = stripN s := stripP_idem wsN s

theorem parseWordFilter_props (raw : Text) :
    ∀ w ∈ parseWordFilter raw, w ≠ [] ∧ stripN w = w ∧ toLowerN w = w := by
  intro w hw
  unfold parseWordFilter at hw
  obtain ⟨x, _, hfx⟩ := List.mem_filterMap.mp hw
  by_cases hstrip : stripN x = []
  · simp [hstrip] at hfx
  · rw [if_neg hstrip] at hfx
    obtain rfl : toLowerN (stripN x) = w := by injection hfx
    refine ⟨?_, ?_, toLowerN_idem _⟩
    · simpa [toLowerN] using hstrip
    · rw [stripN_toLowerN, stripN_idem]

/-! ## Supporting lemmas: mute registry -/

theorem lookup_erase (reg : MuteRegistry) (u : Nat) : lookup (erase reg u) u = none :=
  assocGet_assocErase reg u

theorem muteCheck_absent (reg : MuteRegistry) (u : Nat) (now : Int)
    (h : lookup reg u = none) : muteCheck reg u now = (false, reg) := by
  unfold muteCheck
  rw [h]

theorem muteCheck_zero_entry (reg : MuteRegistry) (u : Nat) (now : Int)
    (h : lookup reg u = some 0) : muteCheck reg u now = (false, reg) := by
  unfold muteCheck
  rw [h]
  simp

theorem muteCheck_active (reg : MuteRegistry) (u : Nat) (now : Int) (t : Int)
    (h : lookup reg u = some t) (ht : t ≠ 0) (hlt : now < t) :
    muteCheck reg u now = (true, reg) := by
  unfold muteCheck
  rw [h]
  simp [ht, hlt]

theorem muteCheck_expired (reg : MuteRegistry) (u : Nat) (now : Int) (t : Int)
    (h : lookup reg u = some t) (ht : t ≠ 0) (hlt : ¬ now < t) :
    muteCheck reg u now = (false, erase reg u) := by
  unfold muteCheck
  rw [h]
  simp [ht, hlt]

theorem muteCheck_pos_snd (reg : MuteRegistry) (u : Nat) (now : Int)
    (h : (muteCheck reg u now).1 = true) : (muteCheck reg u now).2 = reg := by
  cases hl : lookup reg u with
  | none => rw [muteCheck_absent reg u now hl]
  | some t =>
    by_cases ht : t = 0
    · subst ht
      rw [muteCheck_zero_entry reg u now hl]
    · by_cases hlt : now < t
      · rw [muteCheck_active reg u now t hl ht hlt]
      · rw [muteCheck_expired reg u now t hl ht hlt] at h
        simp at h

/-! ## C1: mute-registry semantics -/

/-- C1 (counterexample).  The claim states that whenever an entry for a user
exists but is expired, the mute check removes the entry as a side effect.
That fails on the registry state `{42: 0}`: the entry exists and is expired
at instant 5, the check is (correctly) negative, but the Python truthiness
guard `if unmute_time:` skips the cleanup branch for the timestamp `0`, so
the entry survives the check. -/
theorem c1_counterexample :
    lookup [(42, 0)] 42 = some 0
    ∧ ¬ ((5 : Int) < 0)
    ∧ (muteCheck [(42, 0)] 42 5).1 = false
    ∧ ¬ (lookup (muteCheck [(42, 0)] 42 5).2 42 = none) := by decide

/-- C1 (amended).  For every registry, user and (nonnegative) instant: the
mute check is positive iff an entry exists whose expiry is strictly after
the instant; an existing *nonzero* expired entry is removed by the check
(lazy cleanup) — an entry with timestamp exactly `0` is exempt, per the
counterexample; and the end-to-end scenario holds: `/admin timeout` of user
42 for 1 minute at t=0 makes the check at t=30 positive and the check at
t=61 negative with the entry removed. -/
theorem c1_mute_check_amended (reg : MuteRegistry) (u : Nat) (now : Nat) :
    ((muteCheck reg u (now : Int)).1 = true ↔ ∃ t, lookup reg u = some t ∧ (now : Int) < t)
    ∧ (∀ t : Int, lookup reg u = some t → t ≠ 0 → t ≤ (now : Int) →
        lookup (muteCheck reg u (now : Int)).2 u = none)
    ∧ ((timeout_cmd [] "42" 1 0 true true).1 = [(42, 60)]
        ∧ (muteCheck (timeout_cmd [] "42" 1 0 true true).1 42 30).1 = true
        ∧ (muteCheck (timeout_cmd [] "42" 1 0 true true).1 42 61).1 = false
        ∧ lookup (muteCheck (timeout_cmd [] "42" 1 0 true true).1 42 61).2 42 = none) := by
  refine ⟨?_, ?_, by decide⟩
  · cases hl : lookup reg u with
    | none =>
      rw [muteCheck_absent reg u now hl]
      simp [hl]
    | some t =>
      by_cases ht : t = 0
      · subst ht
        rw [muteCheck_zero_entry reg u now hl]
        constructor
        · intro h
          simp at h
        · rintro ⟨t', ht', hlt⟩
          obtain rfl : (0 : Int) = t' := by injection ht'
          omega
      · by_cases hlt : (now : Int) < t
        · rw [muteCheck_active reg u now t hl ht hlt]
          exact ⟨fun _ => ⟨t, rfl, hlt⟩, fun _ => rfl⟩
        · rw [muteCheck_expired reg u now t hl ht hlt]
          constructor
          · intro h
            simp at h
          · rintro ⟨t', ht', hlt'⟩
            obtain rfl : t = t' := by injection ht'
            omega
  · intro t hlt ht hle
    rw [muteCheck_expired reg u (now : Int) t hlt ht (by omega)]
    exact lookup_erase reg u

/-- C1 (witness).  Instantiates the amended theorem on the registry
`{7: 100}` at instant 150: the entry is expired and the check removes it. -/
theorem c1_witness : lookup (muteCheck [(7, 100)] 7 (150 : Nat)).2 7 = none :=
  (c1_mute_check_amended [(7, 100)] 7 150).2.1 100 (by decide) (by decide) (by decide)

/-! ## C2: temporary-ban continuation -/

/-- C2 (counterexample).  The claim states that a temporary-ban request
whose external ban call succeeds then suspends for the requested duration
and issues an unban.  On the code, the `tempban` branch of `api_kick_ban`
performs exactly one external call — the ban — and reports success at once:
at the concrete request for user 42 with a succeeding ban call, the call
trace is just the ban, and contains no unban. -/
theorem c2_counterexample :
    (api_kick_ban (some "42") (some "tempban") ⟨true, true, true⟩).2 = [Action.banUser 42]
    ∧ ¬ (Action.unbanUser 42 ∈ (api_kick_ban (some "42") (some "tempban") ⟨true, true, true⟩).2) := by
  decide

/-- C2 (amended).  For every valid temporary-ban request whose external ban
call succeeds, the handler performs exactly that one ban call (deleting one
day of messages) and immediately reports success; it never suspends and
never issues an unban — the "temporary" ban is permanent until manually
lifted. -/
theorem c2_tempban_amended (memberId : Option String) (env : KickBanEnv)
    (hv : validNumericId memberId = true) (hb : env.banOk = true) :
    api_kick_ban memberId (some "tempban") env
      = (Response.redirectStatus ("Successfully Banned user " ++ memberId.getD ""
           ++ " (1 day of messages deleted)."),
         [Action.banUser (natOfDigits (memberId.getD ""))])
    ∧ (∀ d, ¬ Action.sleepFor d ∈ (api_kick_ban memberId (some "tempban") env).2)
    ∧ (∀ v, ¬ Action.unbanUser v ∈ (api_kick_ban memberId (some "tempban") env).2) := by
  have he : api_kick_ban memberId (some "tempban") env
      = (Response.redirectStatus ("Successfully Banned user " ++ memberId.getD ""
           ++ " (1 day of messages deleted)."),
         [Action.banUser (natOfDigits (memberId.getD ""))]) := by
    unfold api_kick_ban
    simp [hv, hb]
  refine ⟨he, ?_, ?_⟩ <;>
    · intro x hx
      rw [he] at hx
      simp at hx

/-- C2 (witness).  The amended theorem applied to the concrete request for
user 42 with all external calls succeeding. -/
theorem c2_witness :
    api_kick_ban (some "42") (some "tempban") ⟨true, true, true⟩
      = (Response.redirectStatus "Successfully Banned user 42 (1 day of messages deleted).",
         [Action.banUser 42]) :=
  ((c2_tempban_amended (some "42") ⟨true, true, true⟩ (by decide) (by decide)).1).trans (by decide)

/-! ## C3: duration conversion -/

/-- C3 (counterexample).  The conversion table is as claimed, but an
unrecognized unit is not treated as an invalid-duration error: with unit
`fortnights` the computed `seconds` is 0 and `api_tempmute` proceeds — it
issues the PATCH, records an immediately-expiring registry entry
(`now + 0`), and reports success instead of aborting. -/
theorem c3_counterexample :
    toSeconds 5 "fortnights" = 0
    ∧ api_tempmute [] (some "42") (some "5") (some "fortnights") 1000 true
        = Outcome.ok ([(42, 1000)],
            Response.redirectStatus "Successfully timed out user 42 for 5 fortnights.",
            [Action.patchTimeout 42]) := by decide

/-- C3 (amended).  Converting (n, minutes) yields n·60 seconds, (n, hours)
n·3600, (n, days) n·86400, and any unrecognized unit yields 0 seconds; the
zero, however, is not rejected: for a valid member ID and a succeeding
PATCH, the handler applies a zero-length timeout and reports success (only
durations exceeding 28 days are rejected).  The hypothesis
`timeoutDtOk now 0 = true` is the `utcnow()` contract — with a zero offset
the line-997 timestamp computation succeeds on every real clock, since
`utcnow()` is a valid datetime by construction. -/
theorem c3_duration_conversion_amended (n : Int) (u : String) (reg : MuteRegistry)
    (mid : String) (df : Option String) (now : Int)
    (hm : u ≠ "minutes") (hh : u ≠ "hours") (hd : u ≠ "days")
    (hdf : pyIntField df 1 = some n) (hvm : validNumericId (some mid) = true)
    (hclock : timeoutDtOk now 0 = true) :
    toSeconds n "minutes" = n * 60
    ∧ toSeconds n "hours" = n * 3600
    ∧ toSeconds n "days" = n * 86400
    ∧ toSeconds n u = 0
    ∧ api_tempmute reg (some mid) df (some u) now true
        = Outcome.ok (setMute reg (natOfDigits mid) (now + toSeconds n u),
            Response.redirectStatus ("Successfully timed out user " ++ mid ++ " for "
              ++ intToStr n ++ " " ++ u ++ "."),
            [Action.patchTimeout (natOfDigits mid)]) := by
  have hu0 : toSeconds n u = 0 := by simp [toSeconds, hm, hh, hd]
  refine ⟨by simp [toSeconds], by simp [toSeconds], by simp [toSeconds], hu0, ?_⟩
  unfold api_tempmute
  rw [hdf]
  simp [hvm, hu0, hclock]

/-- C3 (witness).  The amended theorem applied at duration 2 with the
unknown unit `weeks` for user 9 at instant 50. -/
theorem c3_witness :
    api_tempmute [] (some "9") (some "2") (some "weeks") 50 true
      = Outcome.ok ([(9, 50)],
          Response.redirectStatus "Successfully timed out user 9 for 2 weeks.",
          [Action.patchTimeout 9]) :=
  ((c3_duration_conversion_amended 2 "weeks" [] "9" (some "2") 50 (by decide) (by decide)
      (by decide) (by decide) (by decide) (by decide)).2.2.2.2).trans (by decide)

/-! ## C4: event-filter short circuit -/

/-- C4 (counterexample).  The claim states that a message from a muted
author is never also word-filtered, including when the delete call fails.
On the code the `return` sits after `await message.delete()` inside the
`try:`, so when the delete raises, control falls through: for a muted
author (entry 100, instant 10) whose delete fails and whose message
contains a filtered word, the trace shows a second deletion attempt and the
filter log — the word filter ran. -/
theorem c4_counterexample :
    (muteCheck [(7, 100)] 7 10).1 = true
    ∧ (on_message [(7, 100)] ⟨false, some GUILD_ID, 7, txt "say badword now"⟩
         [txt "badword"] ⟨10, false, true⟩).2
        = [Action.deleteMsg, Action.deleteMsg, Action.logFilter (txt "badword")] := by decide

/-- C4 (amended).  For every inbound non-bot in-guild message whose author
is currently muted, the handler attempts to delete the message and leaves
the registry unchanged; if the delete succeeds, processing stops there (the
word filter is not applied), but if the delete fails, the handler falls
through and applies the word filter to the same message. -/
theorem c4_mute_short_circuit_amended (reg : MuteRegistry) (ctx : MsgCtx)
    (fl : List Text) (env : MsgEnv)
    (hb : ctx.authorBot = false) (hg : ctx.guildId = some GUILD_ID)
    (hm : (muteCheck reg ctx.authorId env.now).1 = true) :
    (env.muteDeleteOk = true → on_message reg ctx fl env = (reg, [Action.deleteMsg]))
    ∧ (env.muteDeleteOk = false →
        on_message reg ctx fl env
          = (reg, Action.deleteMsg :: wordFilterActions fl ctx.content env.filterDeleteOk)) := by
  have hsnd := muteCheck_pos_snd reg ctx.authorId env.now hm
  constructor <;> intro hdel <;> simp [on_message, hb, hg, hm, hdel, hsnd]

/-- C4 (witness).  The amended theorem at a muted author whose delete
succeeds: the trace is exactly one deletion. -/
theorem c4_witness :
    on_message [(7, 100)] ⟨false, some GUILD_ID, 7, txt "hello"⟩ [] ⟨10, true, true⟩
      = ([(7, 100)], [Action.deleteMsg]) :=
  (c4_mute_short_circuit_amended [(7, 100)] ⟨false, some GUILD_ID, 7, txt "hello"⟩ []
      ⟨10, true, true⟩ rfl rfl (by decide)).1 rfl

/-! ## C5: word filter -/

/-- C5.  For every inbound non-bot in-guild message whose author is not
currently muted and whose delete call would succeed: if some configured
word is a (case-insensitive) substring of the message body, the message is
deleted exactly once and the filter log names the trigger word, which is
the first matching word in list order; if no word matches, no external
action is taken on the message. -/
theorem c5_word_filter (reg : MuteRegistry) (ctx : MsgCtx) (fl : List Text) (env : MsgEnv)
    (hb : ctx.authorBot = false) (hg : ctx.guildId = some GUILD_ID)
    (hm : (muteCheck reg ctx.authorId env.now).1 = false) (hd : env.filterDeleteOk = true) :
    (∀ w, findFilteredWord fl (toLowerN ctx.content) = some w →
        (on_message reg ctx fl env).2 = [Action.deleteMsg, Action.logFilter w]
        ∧ (on_message reg ctx fl env).2.count Action.deleteMsg = 1
        ∧ ∃ pre post, fl = pre ++ w :: post
            ∧ matchesWord (toLowerN ctx.content) w = true
            ∧ ∀ v ∈ pre, matchesWord (toLowerN ctx.content) v = false)
    ∧ (findFilteredWord fl (toLowerN ctx.content) = none → (on_message reg ctx fl env).2 = [])
    ∧ (findFilteredWord fl (toLowerN ctx.content) = none ↔
        ∀ v ∈ fl, v = [] ∨ containsSub (toLowerN ctx.content) v = false) := by
  have htrace : (on_message reg ctx fl env).2
      = wordFilterActions fl ctx.content env.filterDeleteOk := by
    simp [on_message, hb, hg, hm]
  refine ⟨?_, ?_, ?_⟩
  · intro w hw
    have h1 : (on_message reg ctx fl env).2 = [Action.deleteMsg, Action.logFilter w] := by
      rw [htrace]
      simp [wordFilterActions, hw, hd]
    refine ⟨h1, by rw [h1]; simp [List.count_cons], ?_⟩
    have hw' : fl.find? (matchesWord (toLowerN ctx.content)) = some w := hw
    obtain ⟨pre, post, heq, hpa, hpre⟩ := find?_first_split _ fl w hw'
    exact ⟨pre, post, heq, hpa, hpre⟩
  · intro hn
    rw [htrace]
    simp [wordFilterActions, hn]
  · have hiff : findFilteredWord fl (toLowerN ctx.content) = none ↔
        ∀ v ∈ fl, ¬ (matchesWord (toLowerN ctx.content) v = true) := List.find?_eq_none
    rw [hiff]
    refine forall₂_congr fun v hv => ?_
    by_cases hve : v = [] <;> by_cases hcs : containsSub (toLowerN ctx.content) v = true <;>
      simp [matchesWord, hve, hcs, List.isEmpty_iff]

/-- C5 (witness).  A message containing `BadWord` (mixed case) against the
filter list `[badword]` is deleted once and the trigger word is logged. -/
theorem c5_witness :
    (on_message [] ⟨false, some GUILD_ID, 5, txt "No BadWord here"⟩ [txt "badword"]
        ⟨0, true, true⟩).2
      = [Action.deleteMsg, Action.logFilter (txt "badword")] :=
  ((c5_word_filter [] ⟨false, some GUILD_ID, 5, txt "No BadWord here"⟩ [txt "badword"]
      ⟨0, true, true⟩ rfl rfl (by decide) rfl).1 (txt "badword") (by decide)).1

/-! ## C6: dashboard authenticator -/

/-- C6.  A request is authorized iff the session flag is set and the stored
identity is either the fallback sentinel `FALLBACK_ADMIN` or (via the
code's `str(...)` coercion) the configured administrator identifier; an
unauthorized request is redirected to the login page; the sentinel identity
is written only by a passphrase login with the correct passphrase; and the
OAuth callback writes the session only when the fetched identity equals the
configured administrator identifier. -/
theorem c6_dashboard_authenticator (adminId : String) (s : SessionState) (body : Response)
    (fallbackPassphrase : String) (passphrase : Option String) (code uid : Option String) :
    (login_required_check adminId s = true ↔
        s.authenticated = true
        ∧ (s.discordUserId = some "FALLBACK_ADMIN" ∨ pyStr s.discordUserId = adminId))
    ∧ (login_required_check adminId s = false →
        login_required_route adminId s body = Response.redirectLogin)
    ∧ ((login_post fallbackPassphrase s passphrase).1 ≠ s →
        passphrase = some fallbackPassphrase
        ∧ (login_post fallbackPassphrase s passphrase).1
            = { authenticated := true, discordUserId := some "FALLBACK_ADMIN" })
    ∧ ((oauth_callback adminId s code uid).1 ≠ s →
        (∃ c, code = some c) ∧ uid = some adminId
        ∧ (oauth_callback adminId s code uid).1
            = { authenticated := true, discordUserId := some adminId }) := by
  refine ⟨?_, ?_, ?_, ?_⟩
  · simp only [login_required_check, Bool.or_eq_true, Bool.and_eq_true, decide_eq_true_eq]
    tauto
  · intro h
    simp [login_required_route, h]
  · intro hne
    by_cases hp : passphrase = some fallbackPassphrase
    · exact ⟨hp, by simp [login_post, hp]⟩
    · exact absurd (by simp [login_post, hp]) hne
  · intro hne
    cases code with
    | none => exact absurd rfl hne
    | some c =>
      cases uid with
      | none => exact absurd rfl hne
      | some u =>
        by_cases hu : u = adminId
        · subst hu
          exact ⟨⟨c, rfl⟩, rfl, by simp [oauth_callback]⟩
        · exact absurd (by simp [oauth_callback, hu]) hne

/-- C6 (witness).  With the admin ID configured as `111`, a session holding
the right identity but no authenticated flag is redirected to login. -/
theorem c6_witness :
    login_required_route "111" ⟨false, some "111"⟩ (Response.redirectStatus "ok")
      = Response.redirectLogin :=
  (c6_dashboard_authenticator "111" ⟨false, some "111"⟩ (Response.redirectStatus "ok")
      "pw" none none none).2.1 (by decide)

/-! ## C7: reaction-role binding atomicity -/

/-- C7.  For every add-reaction-role command: when the command reports a
failure the reaction-role table is unchanged; the table can change only on
the success path, i.e. after the channel lookup, the message fetch and the
external add-reaction call have all succeeded (with exactly those two
external calls in the trace); and whenever the add-reaction call fails the
table is unchanged and a failure is reported. -/
theorem c7_reaction_role_atomicity (t : RRTable) (link emoji : String) (role : RoleRef)
    (env : RREnv) :
    ((add_reaction_role t link emoji role env).2.1.isFailure = true →
        (add_reaction_role t link emoji role env).1 = t)
    ∧ ((add_reaction_role t link emoji role env).1 ≠ t →
        env.channelFound = true ∧ env.fetchOk = true ∧ env.addReactionOk = true
        ∧ (add_reaction_role t link emoji role env).2.2
            = [Action.fetchMessage, Action.addReaction]
        ∧ (add_reaction_role t link emoji role env).2.1.isFailure = false)
    ∧ (env.addReactionOk = false →
        (add_reaction_role t link emoji role env).1 = t
        ∧ (add_reaction_role t link emoji role env).2.1.isFailure = true) := by
  by_cases h3 : (splitOnSep '/' link.data).length < 3
  · simp [add_reaction_role, h3, Response.isFailure]
  · cases hrev : (splitOnSep '/' link.data).reverse with
    | nil => simp [add_reaction_role, h3, hrev, Response.isFailure]
    | cons midCs rest =>
      cases rest with
      | nil => simp [add_reaction_role, h3, hrev, Response.isFailure]
      | cons cidCs rest2 =>
        cases hci : pyInt? (String.mk cidCs) with
        | none => simp [add_reaction_role, h3, hrev, hci, Response.isFailure]
        | some k1 =>
          cases hcf : env.channelFound with
          | false => simp [add_reaction_role, h3, hrev, hci, hcf, Response.isFailure]
          | true =>
            cases hmi : pyInt? (String.mk midCs) with
            | none => simp [add_reaction_role, h3, hrev, hci, hmi, hcf, Response.isFailure]
            | some k2 =>
              cases hf : env.fetchOk with
              | false =>
                simp [add_reaction_role, h3, hrev, hci, hmi, hcf, hf, Response.isFailure]
              | true =>
                cases ha : env.addReactionOk with
                | false =>
                  simp [add_reaction_role, h3, hrev, hci, hmi, hcf, hf, ha, Response.isFailure]
                | true =>
                  simp [add_reaction_role, h3, hrev, hci, hmi, hcf, hf, ha, Response.isFailure]

/-- C7 (witness).  A failing add-reaction call on an otherwise valid
request leaves the table unchanged. -/
theorem c7_witness :
    (add_reaction_role [("3", [])] "https://discord.com/channels/1/2/3" "star" ⟨5, "Member"⟩
        ⟨true, true, false⟩).1 = [("3", [])] :=
  ((c7_reaction_role_atomicity [("3", [])] "https://discord.com/channels/1/2/3" "star"
      ⟨5, "Member"⟩ ⟨true, true, false⟩).2.2 rfl).1

/-! ## C8: unmute idempotence -/

/-- C8 (counterexample).  Unmuting the absent user 7 leaves the registry
unchanged and does not fail, but the acknowledgment is the ordinary success
message `Successfully unmuted user 7.` — it does not report "not muted" as
the claim states (the message does not even contain that phrase). -/
theorem c8_counterexample :
    lookup ([] : MuteRegistry) 7 = none
    ∧ api_unmute [] (some "7") true
        = Outcome.ok ([], Response.redirectStatus "Successfully unmuted user 7.",
            [Action.patchClearTimeout 7])
    ∧ containsSub ("Successfully unmuted user 7.").data ("not muted").data = false := by decide

/-- C8 (amended).  For every user absent from the registry, unmute (with a
succeeding external PATCH) leaves the registry exactly unchanged and yields
an informational, non-error result — the ordinary success acknowledgment,
not a "not muted" notice; no error is raised on the absent key.  The same
holds for the `/admin untimeout` command. -/
theorem c8_unmute_amended (reg : MuteRegistry) (s : String)
    (hid : isDigits s = true) (habs : lookup reg (natOfDigits s) = none) :
    api_unmute reg (some s) true
      = Outcome.ok (reg, Response.redirectStatus ("Successfully unmuted user " ++ s ++ "."),
          [Action.patchClearTimeout (natOfDigits s)])
    ∧ (Response.redirectStatus ("Successfully unmuted user " ++ s ++ ".")).isFailure = false
    ∧ untimeout reg s true true
        = (reg, Response.followupOk ("✅ Successfully removed timeout for <@" ++ s ++ ">."),
           [Action.patchClearTimeout (natOfDigits s)]) := by
  have hnone : (lookup reg (natOfDigits s)).isSome = false := by rw [habs]; rfl
  refine ⟨?_, rfl, ?_⟩
  · simp [api_unmute, validNumericId, hid, hnone]
  · simp [untimeout, hid, hnone]

/-- C8 (witness).  The amended theorem at user 9 over the registry
`{3: 50}`. -/
theorem c8_witness :
    api_unmute [(3, 50)] (some "9") true
      = Outcome.ok ([(3, 50)], Response.redirectStatus "Successfully unmuted user 9.",
          [Action.patchClearTimeout 9]) :=
  ((c8_unmute_amended [(3, 50)] "9" (by decide) (by decide)).1).trans (by decide)

/-! ## C9: handler validation failures -/

/-- C9 (counterexample).  The claim states that every invalid parameter —
including a non-numeric count or duration — is reported via an error
redirect with no uncaught exception.  But `int(request.form.get(...))` runs
before validation and outside the `try:` in both `api_prune` and
`api_tempmute`, so a non-numeric `count` / `duration` raises a `ValueError`
that escapes the handler. -/
theorem c9_counterexample :
    api_prune (some "123") (some "abc") ⟨true, true, []⟩ = Outcome.uncaught
    ∧ api_tempmute [] (some "42") (some "xyz") (some "minutes") 0 true = Outcome.uncaught := by
  decide

/-- C9 (amended).  `api_prune` lets an exception escape exactly when a
present count form value fails integer parsing; `api_tempmute` lets one
escape exactly when the duration fails integer parsing, or when the parsed
request survives validation (valid member ID, at most 28 days) but its
timestamp computation at lines 996–997 — outside the `try:` — overflows
(`timeoutDtOk` false, e.g. a hugely negative numeric duration).  All other
validation failures (invalid channel or member ID, out-of-range count) are
reported via an error redirect and abort the action. -/
theorem c9_validation_amended (channelId countField : Option String) (env : PruneEnv)
    (reg : MuteRegistry) (memberId durationField unitField : Option String)
    (now : Int) (patchOk : Bool) :
    ((api_prune channelId countField env).isUncaught = true ↔ pyIntField countField 10 = none)
    ∧ ((api_tempmute reg memberId durationField unitField now patchOk).isUncaught = true
        ↔ (pyIntField durationField 1 = none
            ∨ ∃ d, pyIntField durationField 1 = some d
                ∧ validNumericId memberId = true
                ∧ toSeconds d (unitField.getD "minutes") ≤ 28 * 86400
                ∧ timeoutDtOk now (toSeconds d (unitField.getD "minutes")) = false))
    ∧ (∀ c, pyIntField countField 10 = some c → validNumericId channelId = false →
        api_prune channelId countField env
          = Outcome.ok (Response.redirectError "Invalid Channel ID for Prune.", []))
    ∧ (∀ c, pyIntField countField 10 = some c → validNumericId channelId = true →
        (c < 1 ∨ c > 100) →
        api_prune channelId countField env
          = Outcome.ok (Response.redirectError "Prune count must be between 1 and 100.", []))
    ∧ (∀ d, pyIntField durationField 1 = some d → validNumericId memberId = false →
        api_tempmute reg memberId durationField unitField now patchOk
          = Outcome.ok (reg, Response.redirectError "Invalid Member ID for Mute.", [])) := by
  refine ⟨?_, ?_, ?_, ?_, ?_⟩
  · cases hc : pyIntField countField 10 with
    | none => simp [api_prune, hc, Outcome.isUncaught]
    | some c =>
      simp only [api_prune, hc]
      split_ifs <;> simp [Outcome.isUncaught]
  · cases hd : pyIntField durationField 1 with
    | none => simp [api_tempmute, hd, Outcome.isUncaught]
    | some d =>
      cases hv : validNumericId memberId with
      | false => simp [api_tempmute, hd, hv, Outcome.isUncaught]
      | true =>
        by_cases h28 : (2419200 : Int) < toSeconds d (unitField.getD "minutes")
        · have h28n : ¬ (toSeconds d (unitField.getD "minutes") ≤ 2419200) := by omega
          simp [api_tempmute, hd, hv, h28, h28n, Outcome.isUncaught]
        · have h28le : toSeconds d (unitField.getD "minutes") ≤ 2419200 := by omega
          cases hok : timeoutDtOk now (toSeconds d (unitField.getD "minutes")) with
          | false =>
            simp [api_tempmute, hd, hv, h28, h28le, hok, Outcome.isUncaught]
          | true =>
            by_cases hp : patchOk = true <;>
              simp [api_tempmute, hd, hv, h28, hok, hp, Outcome.isUncaught]
  · intro c hc hv
    simp [api_prune, hc, hv]
  · intro c hc hv hrange
    simp [api_prune, hc, hv, hrange]
  · intro d hd hv
    simp [api_tempmute, hd, hv]

/-- C9 (witness).  The amended theorem at an invalid (non-numeric) channel
ID with a well-formed count: the error is reported by redirect. -/
theorem c9_witness :
    api_prune (some "zzz") (some "10") ⟨true, true, []⟩
      = Outcome.ok (Response.redirectError "Invalid Channel ID for Prune.", []) :=
  (c9_validation_amended (some "zzz") (some "10") ⟨true, true, []⟩ [] none none none 0
      true).2.2.1 10 (by decide) (by decide)

/-! ## C10: word-filter-list invariant -/

/-- Characterization of `api_update_config`: either it fails validation and
leaves the configuration unchanged, or the stored word-filter list is the
parse of the submitted field. -/
theorem api_update_config_spec (cfg : GuildConfig) (logF : Option String) (wfF : Option Text) :
    ((api_update_config cfg logF wfF).2.isFailure = true
        ∧ (api_update_config cfg logF wfF).1 = cfg)
    ∨ (api_update_config cfg logF wfF).1.word_filter_list
        = parseWordFilter (stripN (wfF.getD [])) := by
  simp only [api_update_config]
  split_ifs <;> first
    | exact Or.inl ⟨rfl, rfl⟩
    | exact Or.inr rfl

/-- C10.  Every word stored by the set-word-filter command or by a
successful dashboard config update is nonempty, whitespace-stripped and
lowercase; and the event filter's match never selects an empty word — a
match always names a nonempty word occurring in the content, so an
empty-string entry can never cause a deletion. -/
theorem c10_word_filter_invariant (raw : Text) (cfg : GuildConfig)
    (logF : Option String) (wfF : Option Text) (fl : List Text) (cl : Text) :
    (∀ w ∈ parseWordFilter raw, w ≠ [] ∧ stripN w = w ∧ toLowerN w = w)
    ∧ (set_word_filter cfg raw).1.word_filter_list = parseWordFilter raw
    ∧ (∀ w ∈ (set_word_filter cfg raw).1.word_filter_list,
        w ≠ [] ∧ stripN w = w ∧ toLowerN w = w)
    ∧ ((api_update_config cfg logF wfF).2.isFailure = false →
        ∀ w ∈ (api_update_config cfg logF wfF).1.word_filter_list,
          w ≠ [] ∧ stripN w = w ∧ toLowerN w = w)
    ∧ (∀ w, findFilteredWord fl cl = some w → w ≠ [] ∧ containsSub cl w = true) := by
  refine ⟨parseWordFilter_props raw, rfl, ?_, ?_, ?_⟩
  · intro w hw
    exact parseWordFilter_props raw w hw
  · intro hok w hw
    rcases api_update_config_spec cfg logF wfF with ⟨hfail, _⟩ | hlist
    · exact absurd (hfail.symm.trans hok) (by decide)
    · rw [hlist] at hw
      exact parseWordFilter_props _ w hw
  · intro w hw
    have hp : matchesWord cl w = true := List.find?_some hw
    rw [matchesWord, Bool.and_eq_true] at hp
    refine ⟨?_, hp.2⟩
    intro hnil
    rw [hnil] at hp
    simp at hp

/-- C10 (witness).  The invariant on the concrete input
`" Foo, ,BAR ,,baz"`, whose parse is `[foo, bar, baz]`. -/
theorem c10_witness :
    txt "foo" ≠ [] ∧ stripN (txt "foo") = txt "foo" ∧ toLowerN (txt "foo") = txt "foo" :=
  (c10_word_filter_invariant (txt " Foo, ,BAR ,,baz") ⟨none, [], []⟩ none none [] []).1
    (txt "foo") (by decide)

end HyperOSBot



